import Mathlib

/-!
# The hyper bridge of curl (`lib/c-hyper.c`)

A shallow embedding of the three functions of `lib/c-hyper.c`:

* `read_cb`   the read callback handed to hyper (the spec's `pull`),
* `write_cb`  the write callback handed to hyper (the spec's `push`),
* `Curl_http` the bootstrap that wires a connection into hyper.

Pointers are natural numbers, `NULL` being `0`.  The state is the part of
`struct Curl_easy` the file reads or writes: `data->req.upload_fromhere` and the
four fields of `data->hyp`.  Every call the file makes to a function defined
elsewhere (curl's transport, hyper's C API) is appended to a log together with
the function of this file that made it; what such a call answers is an argument
of the embedded function, so the theorems quantify over all answers.  The
functions defined elsewhere are taken to leave the five modelled fields alone:
only the assignments written in `lib/c-hyper.c` change them.
-/

namespace CHyper

/-! ## Types and constants declared outside `lib/c-hyper.c` -/

/-- A C pointer, as an address. -/
abbrev Ptr := Nat

/-- The null pointer: `if(!p)` in the source is `p = NULL` here. -/
abbrev NULL : Ptr := 0

/-- Modelled from the spec: the enum `CURLcode` is declared in `curl/curl.h`,
which is not among the sources.  The spec distinguishes success, "would
block" and hard errors; a code is a number, success being zero, which is what
the test `else if(result)` of `write_cb` relies on.  The three codes named
below carry the numbers they have in curl; the proofs use only that they
differ. -/
abbrev CURLcode := Nat

/-- Modelled from the spec: the success code of `CURLcode` (see `CURLcode`). -/
abbrev CURLE_OK : CURLcode := 0

/-- Modelled from the spec: the out-of-memory code of `CURLcode`, the
"`OutOfMemory`-class error" of the bootstrap (see `CURLcode`). -/
abbrev CURLE_OUT_OF_MEMORY : CURLcode := 27

/-- Modelled from the spec: the "would block" code of `CURLcode` (see
`CURLcode`). -/
abbrev CURLE_AGAIN : CURLcode := 81

/-- Modelled from the spec: the enum `hyper_code` is declared in `hyper.h`,
which is not among the sources; `enqueue(future) -> {Ok, Err}` answers a
code, `HYPER_OK` being the `Ok` one. -/
abbrev hyper_code := Nat

/-- Modelled from the spec: the `Ok` answer of hyper (see `hyper_code`). -/
abbrev HYPER_OK : hyper_code := 0

/-- Modelled from the spec: the macro `HYPER_IO_PENDING` of `hyper.h` (not
among the sources), the `size_t` a callback returns to say "pending".  It
carries the number it has in hyper, the largest 32-bit value. -/
abbrev HYPER_IO_PENDING : Nat := 4294967295

/-- Modelled from the spec: the macro `HYPER_IO_ERROR` of `hyper.h` (not among
the sources), the `size_t` a callback returns to say "error".  It carries the
number it has in hyper, one below `HYPER_IO_PENDING`. -/
abbrev HYPER_IO_ERROR : Nat := 4294967294

/-- Modelled from the spec: the three outcomes of a callback,
`Ready(bytes_written)`, `Pending` and `IoError`.  The callbacks return a
`size_t` in which `HYPER_IO_PENDING` and `HYPER_IO_ERROR` stand for the last
two and any other value is a byte count. -/
inductive Outcome where
  | Ready (bytes_written : Nat)
  | Pending
  | IoError
  deriving DecidableEq, Repr

/-- Modelled from the spec: the outcome hyper reads in the `size_t` a callback
returns: `HYPER_IO_PENDING` is `Pending`, `HYPER_IO_ERROR` is `IoError`, any
other value is that many bytes. -/
def hyper_io (returned : Nat) : Outcome :=
  if returned = HYPER_IO_PENDING then Outcome.Pending
  else if returned = HYPER_IO_ERROR then Outcome.IoError
  else Outcome.Ready returned

/-- The fields of `struct hyptransfer` (`data->hyp`) used by the file. -/
structure hyptransfer where
  exec : Ptr
  handshake : Ptr
  read_waker : Ptr
  write_waker : Ptr
  deriving DecidableEq, Repr

/-- The fields of `struct Curl_easy` (`conn->data`) used by the file. -/
structure Curl_easy where
  upload_fromhere : Ptr
  hyp : hyptransfer
  deriving DecidableEq, Repr

/-! ## The log of calls to collaborators -/

/-- The functions of `lib/c-hyper.c`. -/
inductive Fn where
  | read_cb
  | write_cb
  | Curl_http
  deriving DecidableEq, Repr

/-- A call to a function defined outside the file, with its arguments and,
last, what it answered. -/
inductive Call where
  | Curl_fillreadbuffer (bytes : Nat) (result : CURLcode) (nread : Nat)
  | Curl_client_write (ptr : Ptr) (len : Nat) (result : CURLcode)
  | hyper_waker_free (waker : Ptr)
  | hyper_context_waker (ctx : Ptr) (waker : Ptr)
  | failf (msg : String)
  | infof (msg : String)
  | hyper_io_new (io : Ptr)
  | hyper_io_set_data (io : Ptr)
  | hyper_io_set_read (io : Ptr)
  | hyper_io_set_write (io : Ptr)
  | hyper_executor_new (exec : Ptr)
  | hyper_clientconn_options_new (options : Ptr)
  | hyper_clientconn_options_exec (options : Ptr) (exec : Ptr)
  | hyper_clientconn_handshake (io : Ptr) (options : Ptr) (handshake : Ptr)
  | hyper_executor_push (exec : Ptr) (handshake : Ptr) (code : hyper_code)
  deriving DecidableEq, Repr

/-- A connection as the file sees it: the transfer state and the calls made so
far, oldest first, each with the function that made it. -/
structure connectdata where
  data : Curl_easy
  log : List (Fn × Call)
  deriving DecidableEq, Repr

/-- Record a call made by `f`. -/
def connectdata.call (conn : connectdata) (f : Fn) (c : Call) : connectdata :=
  { conn with log := conn.log ++ [(f, c)] }

/-- The assignment `data->req.upload_fromhere = p`. -/
def connectdata.set_upload_fromhere (conn : connectdata) (p : Ptr) : connectdata :=
  { conn with data := { conn.data with upload_fromhere := p } }

/-- The assignment `data->hyp.read_waker = p`. -/
def connectdata.set_read_waker (conn : connectdata) (p : Ptr) : connectdata :=
  { conn with data := { conn.data with hyp := { conn.data.hyp with read_waker := p } } }

/-- The assignment `data->hyp.write_waker = p`. -/
def connectdata.set_write_waker (conn : connectdata) (p : Ptr) : connectdata :=
  { conn with data := { conn.data with hyp := { conn.data.hyp with write_waker := p } } }

/-- The assignment `h->exec = p`. -/
def connectdata.set_exec (conn : connectdata) (p : Ptr) : connectdata :=
  { conn with data := { conn.data with hyp := { conn.data.hyp with exec := p } } }

/-- The assignment `h->handshake = p`. -/
def connectdata.set_handshake (conn : connectdata) (p : Ptr) : connectdata :=
  { conn with data := { conn.data with hyp := { conn.data.hyp with handshake := p } } }

/-! ## The functions of the file -/

/-- The function `read_cb`: `fill` is what `Curl_fillreadbuffer` answers (its
result and the `nread` it writes), `waker` what `hyper_context_waker(ctx)`
answers when it is called.  The function returns one of the three constants
`HYPER_IO_ERROR`, `HYPER_IO_PENDING` and `0`, which differ, so its result is
given as the outcome hyper reads in it: `IoError`, `Pending`, `Ready 0`. -/
def read_cb (userp : connectdata) (ctx : Ptr) (buf : Ptr) (buflen : Nat)
    (fill : CURLcode × Nat) (waker : Ptr) : Outcome × connectdata := Id.run do
  let mut conn := userp
  conn := conn.set_upload_fromhere buf
  let result := fill.1
  conn := conn.call .read_cb (.Curl_fillreadbuffer buflen result fill.2)
  if result = CURLE_AGAIN then
    -- would block, register interest
    if conn.data.hyp.read_waker ≠ NULL then
      conn := conn.call .read_cb (.hyper_waker_free conn.data.hyp.read_waker)
    conn := (conn.call .read_cb (.hyper_context_waker ctx waker)).set_read_waker waker
    if conn.data.hyp.read_waker = NULL then
      conn := conn.call .read_cb (.failf "Couldn't make the read hyper_context_waker")
      return (Outcome.IoError, conn)
    return (Outcome.Pending, conn)
  return (Outcome.Ready 0, conn)

/-- The function `write_cb`: `drain` is what `Curl_client_write` answers,
`waker` what `hyper_context_waker(ctx)` answers when it is called.  The function
returns the `size_t` of the source: `buflen` can be any value, those of
`HYPER_IO_PENDING` and `HYPER_IO_ERROR` included. -/
def write_cb (userp : connectdata) (ctx : Ptr) (buf : Ptr) (buflen : Nat)
    (drain : CURLcode) (waker : Ptr) : Nat × connectdata := Id.run do
  let mut conn := userp
  -- This might be something else than body!
  let result := drain
  conn := conn.call .write_cb (.Curl_client_write buf buflen result)
  if result = CURLE_AGAIN then
    -- would block, register interest
    if conn.data.hyp.write_waker ≠ NULL then
      conn := conn.call .write_cb (.hyper_waker_free conn.data.hyp.write_waker)
    conn := (conn.call .write_cb (.hyper_context_waker ctx waker)).set_write_waker waker
    if conn.data.hyp.write_waker = NULL then
      conn := conn.call .write_cb (.failf "Couldn't make the write hyper_context_waker")
      return (HYPER_IO_ERROR, conn)
    return (HYPER_IO_PENDING, conn)
  else if result ≠ 0 then
    return (HYPER_IO_ERROR, conn)
  return (buflen, conn)

/-- What hyper answers to the calls of one `Curl_http`: the pointers returned
by the four constructors (`NULL` on failure) and the code returned by
`hyper_executor_push`.  An answer is used only if its call is made. -/
structure Hyper where
  hyper_io_new : Ptr
  hyper_executor_new : Ptr
  hyper_clientconn_options_new : Ptr
  hyper_clientconn_handshake : Ptr
  hyper_executor_push : hyper_code
  deriving DecidableEq, Repr

/-- The function `Curl_http`.  It returns its result, the value it leaves in
`*done`, and the connection. -/
def Curl_http (conn0 : connectdata) (hyper : Hyper) : CURLcode × Bool × connectdata := Id.run do
  let mut conn := conn0
  -- Always consider the DO phase done after this function call
  let done := true
  conn := conn.call .Curl_http (.infof "Time for the Hyper dance\n")
  let io := hyper.hyper_io_new
  conn := conn.call .Curl_http (.hyper_io_new io)
  if io = NULL then
    conn := conn.call .Curl_http (.failf "Couldn't create hyper IO")
    return (CURLE_OUT_OF_MEMORY, done, conn)
  conn := conn.call .Curl_http (.hyper_io_set_data io)
  conn := conn.call .Curl_http (.hyper_io_set_read io)
  conn := conn.call .Curl_http (.hyper_io_set_write io)
  -- create an executor to poll futures
  if conn.data.hyp.exec = NULL then
    conn := (conn.call .Curl_http (.hyper_executor_new hyper.hyper_executor_new)).set_exec
      hyper.hyper_executor_new
    if conn.data.hyp.exec = NULL then
      conn := conn.call .Curl_http (.failf "Couldn't create hyper executor")
      return (CURLE_OUT_OF_MEMORY, done, conn)
  let options := hyper.hyper_clientconn_options_new
  conn := conn.call .Curl_http (.hyper_clientconn_options_new options)
  if options = NULL then
    conn := conn.call .Curl_http (.failf "Couldn't create hyper client options")
    return (CURLE_OUT_OF_MEMORY, done, conn)
  conn := conn.call .Curl_http (.hyper_clientconn_options_exec options conn.data.hyp.exec)
  if conn.data.hyp.handshake = NULL then
    -- "Both the io and the options are consumed in this function call"
    conn := (conn.call .Curl_http (.hyper_clientconn_handshake io options
      hyper.hyper_clientconn_handshake)).set_handshake hyper.hyper_clientconn_handshake
    if conn.data.hyp.handshake = NULL then
      conn := conn.call .Curl_http (.failf "Couldn't create hyper client handshake")
      return (CURLE_OUT_OF_MEMORY, done, conn)
  conn := conn.call .Curl_http (.hyper_executor_push conn.data.hyp.exec conn.data.hyp.handshake
    hyper.hyper_executor_push)
  if HYPER_OK ≠ hyper.hyper_executor_push then
    conn := conn.call .Curl_http (.failf "Couldn't hyper_executor_push")
    return (CURLE_OUT_OF_MEMORY, done, conn)
  return (CURLE_OK, done, conn)

/-! ## Vocabulary of the properties -/

/-- Some field of `data->hyp` holds the address `b` after a call and did not
hold it before. -/
def hyp_newly_refers (before after : hyptransfer) (b : Ptr) : Prop :=
  (after.exec = b ∧ before.exec ≠ b) ∨
  (after.handshake = b ∧ before.handshake ≠ b) ∨
  (after.read_waker = b ∧ before.read_waker ≠ b) ∨
  (after.write_waker = b ∧ before.write_waker ≠ b)

/-- Some field of the transfer state holds the address `b` after a call and
did not hold it before. -/
def newly_refers (before after : Curl_easy) (b : Ptr) : Prop :=
  (after.upload_fromhere = b ∧ before.upload_fromhere ≠ b) ∨
  hyp_newly_refers before.hyp after.hyp b

instance (before after : hyptransfer) (b : Ptr) : Decidable (hyp_newly_refers before after b) := by
  unfold hyp_newly_refers; infer_instance

instance (before after : Curl_easy) (b : Ptr) : Decidable (newly_refers before after b) := by
  unfold newly_refers; infer_instance

/-- A connection with every pointer null and nothing logged. -/
def blank : connectdata := ⟨⟨NULL, ⟨NULL, NULL, NULL, NULL⟩⟩, []⟩

/-- The calls `after` logged beyond those of `before`. -/
def connectdata.new_calls (after before : connectdata) : List Call :=
  (after.log.drop before.log.length).map Prod.snd

/-- One poll of the engine on the connection: a call of `read_cb` (the spec's
`pull`) or of `write_cb` (`push`), with the answers of the collaborators. -/
inductive IoCall where
  | pull (ctx buf : Ptr) (buflen : Nat) (fill : CURLcode × Nat) (waker : Ptr)
  | push (ctx buf : Ptr) (buflen : Nat) (drain : CURLcode) (waker : Ptr)
  deriving DecidableEq, Repr

/-- The connection after one poll. -/
def IoCall.apply (conn : connectdata) : IoCall → connectdata
  | .pull ctx buf buflen fill waker => (read_cb conn ctx buf buflen fill waker).2
  | .push ctx buf buflen drain waker => (write_cb conn ctx buf buflen drain waker).2

/-- The connection after a sequence of polls, first to last. -/
def polls (conn : connectdata) (calls : List IoCall) : connectdata :=
  calls.foldl IoCall.apply conn

/-- A sample of polls: three reads that would block, answered the handles 11,
12 and 13, a write that would block, answered 21, and a read that would block
with no handle to be had. -/
def replay : List IoCall :=
  [IoCall.pull 7 4096 16 (CURLE_AGAIN, 0) 11, IoCall.pull 7 4096 16 (CURLE_AGAIN, 0) 12,
    IoCall.pull 7 4096 16 (CURLE_AGAIN, 0) 13, IoCall.push 7 8192 16 CURLE_AGAIN 21,
    IoCall.pull 7 4096 16 (CURLE_AGAIN, 0) NULL]

/-- The effect of one logged call on the wake handles that the callback `f`
obtained from hyper and has not released: a non-null answer of
`hyper_context_waker` to `f` is one more handle, a `hyper_waker_free` by `f`
removes the handle it frees. -/
def live_step (f : Fn) (handles : List Ptr) (e : Fn × Call) : List Ptr :=
  if e.1 = f then
    match e.2 with
    | .hyper_context_waker _ waker => if waker = NULL then handles else handles ++ [waker]
    | .hyper_waker_free waker => handles.erase waker
    | _ => handles
  else handles

/-- The wake handles the callback `f` obtained and has not released, according
to the log. -/
def live (f : Fn) (log : List (Fn × Call)) : List Ptr :=
  log.foldl (live_step f) []

/-- The content of a waker slot as a list of handles: none when it is null. -/
def slot (p : Ptr) : List Ptr :=
  if p = NULL then [] else [p]

/-- The live handles of each direction are exactly the content of its slot. -/
def wakers_accounted (conn : connectdata) : Prop :=
  live Fn.read_cb conn.log = slot conn.data.hyp.read_waker ∧
  live Fn.write_cb conn.log = slot conn.data.hyp.write_waker

/-- The collaborator operations of `Curl_http`, in the order of the source:
the io binding, the executor, the options, the handshake, the enqueue. -/
inductive Step where
  | io
  | executor
  | options
  | handshake
  | enqueue
  deriving DecidableEq, Repr, Fintype

/-- The position of a step in the source. -/
def Step.rank : Step → Nat
  | .io => 1
  | .executor => 2
  | .options => 3
  | .handshake => 4
  | .enqueue => 5

/-- The step a call of `Curl_http` belongs to (`infof` and `failf` are
diagnostics, part of no step). -/
def Call.step : Call → Option Step
  | .hyper_io_new _ => some .io
  | .hyper_io_set_data _ => some .io
  | .hyper_io_set_read _ => some .io
  | .hyper_io_set_write _ => some .io
  | .hyper_executor_new _ => some .executor
  | .hyper_clientconn_options_new _ => some .options
  | .hyper_clientconn_options_exec _ _ => some .options
  | .hyper_clientconn_handshake _ _ _ => some .handshake
  | .hyper_executor_push _ _ _ => some .enqueue
  | _ => none

/-- The step fails on this connection with these answers of hyper: a
constructor answers null (the executor and the handshake are constructed only
when the connection has none), the enqueue answers a code other than
`HYPER_OK`. -/
def fails (conn : connectdata) (hyper : Hyper) : Step → Prop
  | .io => hyper.hyper_io_new = NULL
  | .executor => conn.data.hyp.exec = NULL ∧ hyper.hyper_executor_new = NULL
  | .options => hyper.hyper_clientconn_options_new = NULL
  | .handshake => conn.data.hyp.handshake = NULL ∧ hyper.hyper_clientconn_handshake = NULL
  | .enqueue => hyper.hyper_executor_push ≠ HYPER_OK

instance (conn : connectdata) (hyper : Hyper) (k : Step) : Decidable (fails conn hyper k) := by
  cases k <;> unfold fails <;> infer_instance

/-- The step `k` fails and no step before it does. -/
def first_failure (conn : connectdata) (hyper : Hyper) (k : Step) : Prop :=
  fails conn hyper k ∧ ∀ j : Step, j.rank < k.rank → ¬ fails conn hyper j

instance (conn : connectdata) (hyper : Hyper) (k : Step) :
    Decidable (first_failure conn hyper k) := by
  unfold first_failure; infer_instance

/-- The calls of a list that are a `hyper_executor_push`. -/
def pushes (calls : List Call) : List Call :=
  calls.filter fun c => c.step = some Step.enqueue

/-! ## The callbacks in closed form -/

/-- The function `read_cb`, path by path. -/
theorem read_cb_eq (conn : connectdata) (ctx buf : Ptr) (buflen : Nat) (fill : CURLcode × Nat)
    (waker : Ptr) :
    read_cb conn ctx buf buflen fill waker =
      if fill.1 = CURLE_AGAIN then
        (if waker = NULL then Outcome.IoError else Outcome.Pending,
          { data := { upload_fromhere := buf, hyp := { conn.data.hyp with read_waker := waker } },
            log := conn.log ++ [(Fn.read_cb, Call.Curl_fillreadbuffer buflen fill.1 fill.2)] ++
              (if conn.data.hyp.read_waker = NULL then []
               else [(Fn.read_cb, Call.hyper_waker_free conn.data.hyp.read_waker)]) ++
              [(Fn.read_cb, Call.hyper_context_waker ctx waker)] ++
              (if waker = NULL then
                [(Fn.read_cb, Call.failf "Couldn't make the read hyper_context_waker")]
               else []) })
      else
        (Outcome.Ready 0,
          { data := { upload_fromhere := buf, hyp := conn.data.hyp },
            log := conn.log ++ [(Fn.read_cb, Call.Curl_fillreadbuffer buflen fill.1 fill.2)] }) := by
  by_cases h : fill.1 = CURLE_AGAIN <;> by_cases hw : waker = NULL <;>
    by_cases ho : conn.data.hyp.read_waker = NULL <;>
    simp [read_cb, Id.run, h, hw, ho, connectdata.call, connectdata.set_upload_fromhere,
      connectdata.set_read_waker]

/-- The function `write_cb`, path by path. -/
theorem write_cb_eq (conn : connectdata) (ctx buf : Ptr) (buflen : Nat) (drain : CURLcode)
    (waker : Ptr) :
    write_cb conn ctx buf buflen drain waker =
      if drain = CURLE_AGAIN then
        (if waker = NULL then HYPER_IO_ERROR else HYPER_IO_PENDING,
          { data := { conn.data with hyp := { conn.data.hyp with write_waker := waker } },
            log := conn.log ++ [(Fn.write_cb, Call.Curl_client_write buf buflen drain)] ++
              (if conn.data.hyp.write_waker = NULL then []
               else [(Fn.write_cb, Call.hyper_waker_free conn.data.hyp.write_waker)]) ++
              [(Fn.write_cb, Call.hyper_context_waker ctx waker)] ++
              (if waker = NULL then
                [(Fn.write_cb, Call.failf "Couldn't make the write hyper_context_waker")]
               else []) })
      else
        (if drain = CURLE_OK then buflen else HYPER_IO_ERROR,
          { conn with
            log := conn.log ++ [(Fn.write_cb, Call.Curl_client_write buf buflen drain)] }) := by
  by_cases h : drain = CURLE_AGAIN <;> by_cases hw : waker = NULL <;>
    by_cases ho : conn.data.hyp.write_waker = NULL <;> by_cases h0 : drain = CURLE_OK <;>
    simp [write_cb, Id.run, h, hw, ho, h0, connectdata.call, connectdata.set_write_waker]

/-! ## The callbacks: return values -/

/-- C1 (code): when `Curl_fillreadbuffer` succeeds and reports `n` bytes,
`read_cb` returns the byte count 0 whatever `n` is; for `n ≠ 0` this is not
the number of bytes placed in the buffer. -/
theorem read_cb_filled_returns_zero (conn : connectdata) (ctx buf : Ptr) (buflen n : Nat)
    (waker : Ptr) :
    (read_cb conn ctx buf buflen (CURLE_OK, n) waker).1 = Outcome.Ready 0 ∧
    (n ≠ 0 → (read_cb conn ctx buf buflen (CURLE_OK, n) waker).1 ≠ Outcome.Ready n) := by
  have h : (read_cb conn ctx buf buflen (CURLE_OK, n) waker).1 = Outcome.Ready 0 := by
    simp [read_cb, Id.run]
  refine ⟨h, fun hn hr => ?_⟩
  rw [h] at hr
  exact hn (Outcome.Ready.inj hr).symm

/-- C2 (code): when `Curl_fillreadbuffer` answers a hard error (neither success
nor would-block), `read_cb` returns the byte count 0, not `IoError`, and makes
no other call. -/
theorem read_cb_hard_error_returns_zero (conn : connectdata) (ctx buf : Ptr) (buflen : Nat)
    (result : CURLcode) (nread : Nat) (waker : Ptr)
    (_herr : result ≠ CURLE_OK) (hagain : result ≠ CURLE_AGAIN) :
    (read_cb conn ctx buf buflen (result, nread) waker).1 = Outcome.Ready 0 ∧
    (read_cb conn ctx buf buflen (result, nread) waker).1 ≠ Outcome.IoError ∧
    (read_cb conn ctx buf buflen (result, nread) waker).2.log =
      conn.log ++ [(Fn.read_cb, Call.Curl_fillreadbuffer buflen result nread)] := by
  simp [read_cb, Id.run, hagain, connectdata.call, connectdata.set_upload_fromhere]

/-- The transport answers `CURLE_OUT_OF_MEMORY` and `read_cb` returns the byte
count 0. -/
theorem read_cb_hard_error_returns_zero_witness :
    (read_cb blank 7 4096 16 (CURLE_OUT_OF_MEMORY, 0) 0).1 = Outcome.Ready 0 ∧
    (read_cb blank 7 4096 16 (CURLE_OUT_OF_MEMORY, 0) 0).1 ≠ Outcome.IoError ∧
    (read_cb blank 7 4096 16 (CURLE_OUT_OF_MEMORY, 0) 0).2.log =
      blank.log ++ [(Fn.read_cb, Call.Curl_fillreadbuffer 16 CURLE_OUT_OF_MEMORY 0)] :=
  read_cb_hard_error_returns_zero blank 7 4096 16 CURLE_OUT_OF_MEMORY 0 0 (by decide) (by decide)

/-- C4 (as stated, refuted): `Curl_client_write` accepts a buffer whose length
is the number `HYPER_IO_PENDING` (resp. `HYPER_IO_ERROR`): `write_cb` returns
that length, which hyper reads as `Pending` (resp. `IoError`), not as `Ready`
of the length. -/
theorem write_cb_length_read_as_code :
    (write_cb blank 7 4096 4294967295 CURLE_OK 0).1 = 4294967295 ∧
    hyper_io (write_cb blank 7 4096 4294967295 CURLE_OK 0).1 = Outcome.Pending ∧
    hyper_io (write_cb blank 7 4096 4294967295 CURLE_OK 0).1 ≠ Outcome.Ready 4294967295 ∧
    hyper_io (write_cb blank 7 4096 4294967294 CURLE_OK 0).1 = Outcome.IoError ∧
    hyper_io (write_cb blank 7 4096 4294967294 CURLE_OK 0).1 ≠ Outcome.Ready 4294967294 := by
  decide

/-- C4 (amended): when `Curl_client_write` succeeds `write_cb` returns the
`size_t` `buflen`, which hyper reads as `Ready buflen` for every `buflen` other
than the two numbers `HYPER_IO_PENDING` and `HYPER_IO_ERROR`, as `Pending` at
the first and as `IoError` at the second; when it answers an error other than
would-block `write_cb` returns `HYPER_IO_ERROR`, read as `IoError`; and
whenever hyper reads a `Ready` value, `Curl_client_write` succeeded and the
value is `buflen`. -/
theorem write_cb_outcome (conn : connectdata) (ctx buf : Ptr) (buflen : Nat)
    (drain : CURLcode) (waker : Ptr) :
    (drain = CURLE_OK → (write_cb conn ctx buf buflen drain waker).1 = buflen) ∧
    (drain = CURLE_OK → buflen ≠ HYPER_IO_PENDING → buflen ≠ HYPER_IO_ERROR →
      hyper_io (write_cb conn ctx buf buflen drain waker).1 = Outcome.Ready buflen) ∧
    (drain = CURLE_OK → buflen = HYPER_IO_PENDING →
      hyper_io (write_cb conn ctx buf buflen drain waker).1 = Outcome.Pending) ∧
    (drain = CURLE_OK → buflen = HYPER_IO_ERROR →
      hyper_io (write_cb conn ctx buf buflen drain waker).1 = Outcome.IoError) ∧
    (drain ≠ CURLE_OK → drain ≠ CURLE_AGAIN →
      (write_cb conn ctx buf buflen drain waker).1 = HYPER_IO_ERROR ∧
      hyper_io (write_cb conn ctx buf buflen drain waker).1 = Outcome.IoError) ∧
    (∀ n, hyper_io (write_cb conn ctx buf buflen drain waker).1 = Outcome.Ready n →
      drain = CURLE_OK ∧ n = buflen) := by
  rw [write_cb_eq]
  refine ⟨?_, ?_, ?_, ?_, ?_, ?_⟩
  · intro h
    subst h
    simp
  · intro h hp he
    subst h
    simp [hyper_io, hp, he]
  · intro h hp
    subst h
    simp [hyper_io, hp]
  · intro h he
    subst h
    simp [hyper_io, he]
  · intro h0 h1
    simp [hyper_io, h0, h1]
  · intro n
    by_cases h1 : drain = CURLE_AGAIN
    · by_cases hw : waker = NULL <;> simp [hyper_io, h1, hw]
    · by_cases h0 : drain = CURLE_OK
      · by_cases hp : buflen = HYPER_IO_PENDING
        · simp [hyper_io, h1, h0, hp]
        · by_cases he : buflen = HYPER_IO_ERROR
          · simp [hyper_io, h1, h0, he]
          · simp [hyper_io, h1, h0, hp, he]
            exact fun h => h.symm
      · simp [hyper_io, h1, h0]

/-- A buffer of 16 bytes is accepted and `write_cb` returns 16, read as
`Ready 16`; on `CURLE_OUT_OF_MEMORY` it returns `HYPER_IO_ERROR`. -/
theorem write_cb_outcome_witness :
    (write_cb blank 7 4096 16 CURLE_OK 0).1 = 16 ∧
    hyper_io (write_cb blank 7 4096 16 CURLE_OK 0).1 = Outcome.Ready 16 ∧
    (write_cb blank 7 4096 16 CURLE_OUT_OF_MEMORY 0).1 = HYPER_IO_ERROR :=
  ⟨(write_cb_outcome blank 7 4096 16 CURLE_OK 0).1 rfl,
    (write_cb_outcome blank 7 4096 16 CURLE_OK 0).2.1 rfl (by decide) (by decide),
    ((write_cb_outcome blank 7 4096 16 CURLE_OUT_OF_MEMORY 0).2.2.2.2.1 (by decide)
      (by decide)).1⟩

/-! ## The callbacks: the buffer pointer -/

/-- C3 (as stated, refuted): on a connection whose `upload_fromhere` is null,
`read_cb` called with the buffer at address 4096 returns with
`data->req.upload_fromhere` holding 4096. -/
theorem read_cb_retains_buffer :
    newly_refers blank.data (read_cb blank 7 4096 16 (CURLE_OK, 5) 0).2.data 4096 ∧
    (read_cb blank 7 4096 16 (CURLE_OK, 5) 0).2.data.upload_fromhere = 4096 ∧
    blank.data.upload_fromhere ≠ 4096 := by
  decide

/-- C3 (amended): the wake handle answered by hyper being an object other than
the buffer, `write_cb` leaves no field of the transfer state newly holding the
buffer address; `read_cb` leaves `data->req.upload_fromhere` holding the buffer
address when it returns, and no field of `data->hyp` newly holding it. -/
theorem buffer_pointer_retention (conn : connectdata) (ctx buf : Ptr) (buflen : Nat)
    (fill : CURLcode × Nat) (drain : CURLcode) (waker : Ptr) (hwaker : waker ≠ buf) :
    ¬ newly_refers conn.data (write_cb conn ctx buf buflen drain waker).2.data buf ∧
    (read_cb conn ctx buf buflen fill waker).2.data.upload_fromhere = buf ∧
    ¬ hyp_newly_refers conn.data.hyp (read_cb conn ctx buf buflen fill waker).2.data.hyp buf := by
  rw [write_cb_eq, read_cb_eq]
  refine ⟨?_, ?_, ?_⟩
  · by_cases h : drain = CURLE_AGAIN <;> simp [h, newly_refers, hyp_newly_refers, hwaker]
  · by_cases h : fill.1 = CURLE_AGAIN <;> simp [h]
  · by_cases h : fill.1 = CURLE_AGAIN <;> simp [h, hyp_newly_refers, hwaker]

/-- A would-block call in each direction, hyper answering the handle 9 for the
buffer at 4096. -/
theorem buffer_pointer_retention_witness :
    ¬ newly_refers blank.data (write_cb blank 7 4096 16 CURLE_AGAIN 9).2.data 4096 ∧
    (read_cb blank 7 4096 16 (CURLE_AGAIN, 0) 9).2.data.upload_fromhere = 4096 ∧
    ¬ hyp_newly_refers blank.data.hyp (read_cb blank 7 4096 16 (CURLE_AGAIN, 0) 9).2.data.hyp
      4096 :=
  buffer_pointer_retention blank 7 4096 16 (CURLE_AGAIN, 0) CURLE_AGAIN 9 (by decide)

/-! ## The callbacks: wakers -/

/-- C5 (as stated, refuted): `Curl_client_write` accepts a buffer whose length
is the number `HYPER_IO_PENDING`: `write_cb` returns that length, which hyper
reads as `Pending`, although the transport did not answer would-block, no
handle was asked of hyper and `write_waker` is null as before. -/
theorem write_cb_pending_without_waker :
    hyper_io (write_cb blank 7 4096 4294967295 CURLE_OK 9).1 = Outcome.Pending ∧
    (write_cb blank 7 4096 4294967295 CURLE_OK 9).2.data.hyp.write_waker = NULL ∧
    (write_cb blank 7 4096 4294967295 CURLE_OK 9).2.new_calls blank =
      [Call.Curl_client_write 4096 4294967295 CURLE_OK] ∧
    Call.hyper_context_waker 7 9 ∉
      (write_cb blank 7 4096 4294967295 CURLE_OK 9).2.new_calls blank := by
  decide

/-- C5 (amended): when the transport answers would-block, `read_cb` (resp.
`write_cb`) frees the handle stored in `read_waker` (resp. `write_waker`) if
there is one, then asks hyper for a handle from `ctx` and stores the answer in
that slot; it returns `Pending` exactly when the answer is not null and
`IoError` exactly when it is null, the slot then being null.  Conversely
`read_cb` returns `Pending` only if the transport answered would-block and it
has just stored the non-null handle it obtained from `ctx`; what `write_cb`
returns is read as `Pending` only in that same case or when the transport
accepted a buffer whose length is the number `HYPER_IO_PENDING`, the transfer
state then being as before the call. -/
theorem would_block_registers_waker (conn : connectdata) (ctx buf : Ptr) (buflen nread : Nat)
    (waker : Ptr) :
    ((read_cb conn ctx buf buflen (CURLE_AGAIN, nread) waker).2.new_calls conn =
        [Call.Curl_fillreadbuffer buflen CURLE_AGAIN nread] ++
        (if conn.data.hyp.read_waker = NULL then []
         else [Call.hyper_waker_free conn.data.hyp.read_waker]) ++
        [Call.hyper_context_waker ctx waker] ++
        (if waker = NULL then [Call.failf "Couldn't make the read hyper_context_waker"] else []) ∧
      ((read_cb conn ctx buf buflen (CURLE_AGAIN, nread) waker).1 = Outcome.Pending ↔
        waker ≠ NULL) ∧
      ((read_cb conn ctx buf buflen (CURLE_AGAIN, nread) waker).1 = Outcome.IoError ↔
        waker = NULL) ∧
      (read_cb conn ctx buf buflen (CURLE_AGAIN, nread) waker).2.data.hyp.read_waker = waker) ∧
    ((write_cb conn ctx buf buflen CURLE_AGAIN waker).2.new_calls conn =
        [Call.Curl_client_write buf buflen CURLE_AGAIN] ++
        (if conn.data.hyp.write_waker = NULL then []
         else [Call.hyper_waker_free conn.data.hyp.write_waker]) ++
        [Call.hyper_context_waker ctx waker] ++
        (if waker = NULL then [Call.failf "Couldn't make the write hyper_context_waker"]
         else []) ∧
      (write_cb conn ctx buf buflen CURLE_AGAIN waker).1 =
        (if waker = NULL then HYPER_IO_ERROR else HYPER_IO_PENDING) ∧
      (hyper_io (write_cb conn ctx buf buflen CURLE_AGAIN waker).1 = Outcome.Pending ↔
        waker ≠ NULL) ∧
      (hyper_io (write_cb conn ctx buf buflen CURLE_AGAIN waker).1 = Outcome.IoError ↔
        waker = NULL) ∧
      (write_cb conn ctx buf buflen CURLE_AGAIN waker).2.data.hyp.write_waker = waker) ∧
    (∀ fill : CURLcode × Nat, (read_cb conn ctx buf buflen fill waker).1 = Outcome.Pending →
      fill.1 = CURLE_AGAIN ∧ waker ≠ NULL ∧
      (read_cb conn ctx buf buflen fill waker).2.data.hyp.read_waker = waker ∧
      Call.hyper_context_waker ctx waker ∈
        (read_cb conn ctx buf buflen fill waker).2.new_calls conn) ∧
    (∀ drain : CURLcode,
      hyper_io (write_cb conn ctx buf buflen drain waker).1 = Outcome.Pending →
      (drain = CURLE_AGAIN ∧ waker ≠ NULL ∧
        (write_cb conn ctx buf buflen drain waker).2.data.hyp.write_waker = waker ∧
        Call.hyper_context_waker ctx waker ∈
          (write_cb conn ctx buf buflen drain waker).2.new_calls conn) ∨
      (drain = CURLE_OK ∧ buflen = HYPER_IO_PENDING ∧
        (write_cb conn ctx buf buflen drain waker).2.data = conn.data ∧
        (write_cb conn ctx buf buflen drain waker).2.new_calls conn =
          [Call.Curl_client_write buf buflen drain])) := by
  refine ⟨?_, ?_, ?_, ?_⟩
  · rw [read_cb_eq]
    by_cases hw : waker = NULL <;> by_cases ho : conn.data.hyp.read_waker = NULL <;>
      simp [hw, ho, connectdata.new_calls]
  · rw [write_cb_eq]
    by_cases hw : waker = NULL <;> by_cases ho : conn.data.hyp.write_waker = NULL <;>
      simp [hw, ho, connectdata.new_calls, hyper_io]
  · intro fill
    rw [read_cb_eq]
    by_cases h : fill.1 = CURLE_AGAIN <;> by_cases hw : waker = NULL <;>
      by_cases ho : conn.data.hyp.read_waker = NULL <;>
      simp [h, hw, ho, connectdata.new_calls]
  · intro drain
    rw [write_cb_eq]
    by_cases h : drain = CURLE_AGAIN
    · by_cases hw : waker = NULL <;> by_cases ho : conn.data.hyp.write_waker = NULL <;>
        simp [h, hw, ho, connectdata.new_calls, hyper_io]
    · by_cases h0 : drain = CURLE_OK
      · by_cases hp : buflen = HYPER_IO_PENDING
        · simp [h, h0, hp, connectdata.new_calls, hyper_io]
        · by_cases he : buflen = HYPER_IO_ERROR <;>
            simp [h, h0, hp, he, connectdata.new_calls, hyper_io]
      · simp [h, h0, connectdata.new_calls, hyper_io]

/-- A write that would block, hyper answering the handle 9, is read as `Pending`
with 9 stored; with no handle to be had it is read as `IoError`. -/
theorem would_block_registers_waker_witness :
    hyper_io (write_cb blank 7 4096 16 CURLE_AGAIN 9).1 = Outcome.Pending ∧
    (write_cb blank 7 4096 16 CURLE_AGAIN 9).2.data.hyp.write_waker = 9 ∧
    hyper_io (write_cb blank 7 4096 16 CURLE_AGAIN NULL).1 = Outcome.IoError ∧
    (read_cb blank 7 4096 16 (CURLE_AGAIN, 0) 9).2.data.hyp.read_waker = 9 :=
  ⟨(would_block_registers_waker blank 7 4096 16 0 9).2.1.2.2.1.2 (by decide),
    (would_block_registers_waker blank 7 4096 16 0 9).2.1.2.2.2.2,
    (would_block_registers_waker blank 7 4096 16 0 NULL).2.1.2.2.2.1.2 rfl,
    (would_block_registers_waker blank 7 4096 16 0 9).1.2.2.2⟩

/-- C10: a callback whose transport answer is not would-block makes that one
transport call and leaves `data->hyp`, hence both waker slots, as it was;
`read_cb` never changes `write_waker` and `write_cb` never changes
`read_waker`; and a callback that does not return `Pending` (for `write_cb`:
whose returned `size_t` hyper does not read as `Pending`) leaves in its own slot
the handle that was there or null, never a newly stored handle. -/
theorem wakers_frame (conn : connectdata) (ctx buf : Ptr) (buflen : Nat)
    (fill : CURLcode × Nat) (drain : CURLcode) (waker : Ptr) :
    (fill.1 ≠ CURLE_AGAIN →
      (read_cb conn ctx buf buflen fill waker).2.data.hyp = conn.data.hyp ∧
      (read_cb conn ctx buf buflen fill waker).2.new_calls conn =
        [Call.Curl_fillreadbuffer buflen fill.1 fill.2]) ∧
    (drain ≠ CURLE_AGAIN →
      (write_cb conn ctx buf buflen drain waker).2.data = conn.data ∧
      (write_cb conn ctx buf buflen drain waker).2.new_calls conn =
        [Call.Curl_client_write buf buflen drain]) ∧
    (read_cb conn ctx buf buflen fill waker).2.data.hyp.write_waker =
      conn.data.hyp.write_waker ∧
    (write_cb conn ctx buf buflen drain waker).2.data.hyp.read_waker =
      conn.data.hyp.read_waker ∧
    ((read_cb conn ctx buf buflen fill waker).1 ≠ Outcome.Pending →
      (read_cb conn ctx buf buflen fill waker).2.data.hyp.read_waker =
        conn.data.hyp.read_waker ∨
      (read_cb conn ctx buf buflen fill waker).2.data.hyp.read_waker = NULL) ∧
    (hyper_io (write_cb conn ctx buf buflen drain waker).1 ≠ Outcome.Pending →
      (write_cb conn ctx buf buflen drain waker).2.data.hyp.write_waker =
        conn.data.hyp.write_waker ∨
      (write_cb conn ctx buf buflen drain waker).2.data.hyp.write_waker = NULL) := by
  rw [write_cb_eq, read_cb_eq]
  by_cases h : fill.1 = CURLE_AGAIN <;> by_cases hd : drain = CURLE_AGAIN <;>
    by_cases hw : waker = NULL <;> simp [h, hd, hw, connectdata.new_calls, hyper_io]

/-! ## Sequences of polls -/

/-- The live handles of a log extended by more calls. -/
theorem live_append (f : Fn) (log es : List (Fn × Call)) :
    live f (log ++ es) = es.foldl (live_step f) (live f log) := by
  simp [live, List.foldl_append]

/-- One poll keeps the live handles equal to the slots. -/
theorem wakers_accounted_apply (conn : connectdata) (c : IoCall) (h : wakers_accounted conn) :
    wakers_accounted (c.apply conn) := by
  obtain ⟨hr, hw⟩ := h
  cases c with
  | pull ctx buf buflen fill waker =>
    simp only [IoCall.apply, read_cb_eq]
    by_cases h : fill.1 = CURLE_AGAIN <;> by_cases hk : waker = NULL <;>
      by_cases ho : conn.data.hyp.read_waker = NULL <;>
      simp [h, hk, ho, wakers_accounted, live_append, live_step, hr, hw, slot]
  | push ctx buf buflen drain waker =>
    simp only [IoCall.apply, write_cb_eq]
    by_cases h : drain = CURLE_AGAIN <;> by_cases hk : waker = NULL <;>
      by_cases ho : conn.data.hyp.write_waker = NULL <;>
      simp [h, hk, ho, wakers_accounted, live_append, live_step, hr, hw, slot]

/-- A sequence of polls keeps the live handles equal to the slots. -/
theorem wakers_accounted_polls (calls : List IoCall) :
    ∀ conn : connectdata, wakers_accounted conn → wakers_accounted (polls conn calls) := by
  induction calls with
  | nil => intro conn h; simpa [polls] using h
  | cons c cs ih =>
    intro conn h
    have := ih (c.apply conn) (wakers_accounted_apply conn c h)
    simpa [polls] using this

/-- A slot holds at most one handle. -/
theorem slot_length_le_one (p : Ptr) : (slot p).length ≤ 1 := by
  unfold slot; split <;> simp

/-- C6: from a connection with both waker slots null and no live handle, after
each call of any sequence of `read_cb` and `write_cb` calls, whatever the
transport and hyper answer, the handles a direction's callback obtained and has
not released are exactly the content of that direction's slot, hence at most
one. -/
theorem wakers_never_accumulate (conn : connectdata)
    (hread : conn.data.hyp.read_waker = NULL) (hwrite : conn.data.hyp.write_waker = NULL)
    (hlive_read : live Fn.read_cb conn.log = []) (hlive_write : live Fn.write_cb conn.log = [])
    (calls : List IoCall) (k : Nat) :
    live Fn.read_cb (polls conn (calls.take k)).log =
      slot (polls conn (calls.take k)).data.hyp.read_waker ∧
    live Fn.write_cb (polls conn (calls.take k)).log =
      slot (polls conn (calls.take k)).data.hyp.write_waker ∧
    (live Fn.read_cb (polls conn (calls.take k)).log).length ≤ 1 ∧
    (live Fn.write_cb (polls conn (calls.take k)).log).length ≤ 1 := by
  have h0 : wakers_accounted conn := by
    simp [wakers_accounted, hread, hwrite, hlive_read, hlive_write, slot]
  obtain ⟨h1, h2⟩ := wakers_accounted_polls (calls.take k) conn h0
  refine ⟨h1, h2, ?_, ?_⟩
  · rw [h1]; exact slot_length_le_one _
  · rw [h2]; exact slot_length_le_one _

/-- After the first four polls of `replay` the handles obtained by `read_cb`
and not released are one, the handle 13 stored in `read_waker`; the handles 11
and 12 were released. -/
theorem wakers_never_accumulate_witness :
    live Fn.read_cb (polls blank (replay.take 4)).log =
      slot (polls blank (replay.take 4)).data.hyp.read_waker ∧
    (polls blank (replay.take 4)).data.hyp.read_waker = 13 ∧
    live Fn.read_cb (polls blank (replay.take 4)).log = [13] ∧
    live Fn.write_cb (polls blank (replay.take 4)).log = [21] ∧
    live Fn.read_cb (polls blank replay).log = [] :=
  ⟨(wakers_never_accumulate blank (by decide) (by decide) (by decide) (by decide) replay 4).1,
    by decide, by decide, by decide, by decide⟩

/-! ## The bootstrap in closed form -/

/-- The function `Curl_http`, path by path. -/
theorem Curl_http_eq (conn : connectdata) (hyper : Hyper) :
    Curl_http conn hyper =
      let io := hyper.hyper_io_new
      let options := hyper.hyper_clientconn_options_new
      let exec := if conn.data.hyp.exec = NULL then hyper.hyper_executor_new
        else conn.data.hyp.exec
      let handshake := if conn.data.hyp.handshake = NULL then hyper.hyper_clientconn_handshake
        else conn.data.hyp.handshake
      let c1 := [Call.infof "Time for the Hyper dance\n", Call.hyper_io_new io]
      let c2 := c1 ++ [Call.hyper_io_set_data io, Call.hyper_io_set_read io,
        Call.hyper_io_set_write io] ++
        (if conn.data.hyp.exec = NULL then [Call.hyper_executor_new hyper.hyper_executor_new]
         else [])
      let c3 := c2 ++ [Call.hyper_clientconn_options_new options]
      let c4 := c3 ++ [Call.hyper_clientconn_options_exec options exec] ++
        (if conn.data.hyp.handshake = NULL then
          [Call.hyper_clientconn_handshake io options hyper.hyper_clientconn_handshake]
         else [])
      let c5 := c4 ++ [Call.hyper_executor_push exec handshake hyper.hyper_executor_push]
      let made := fun (cs : List Call) => conn.log ++ cs.map (Prod.mk Fn.Curl_http)
      if io = NULL then
        (CURLE_OUT_OF_MEMORY, true,
          { data := conn.data, log := made (c1 ++ [Call.failf "Couldn't create hyper IO"]) })
      else if exec = NULL then
        (CURLE_OUT_OF_MEMORY, true,
          { data := conn.data,
            log := made (c2 ++ [Call.failf "Couldn't create hyper executor"]) })
      else if options = NULL then
        (CURLE_OUT_OF_MEMORY, true,
          { data := { conn.data with hyp := { conn.data.hyp with exec := exec } },
            log := made (c3 ++ [Call.failf "Couldn't create hyper client options"]) })
      else if handshake = NULL then
        (CURLE_OUT_OF_MEMORY, true,
          { data := { conn.data with hyp := { conn.data.hyp with exec := exec } },
            log := made (c4 ++ [Call.failf "Couldn't create hyper client handshake"]) })
      else if hyper.hyper_executor_push ≠ HYPER_OK then
        (CURLE_OUT_OF_MEMORY, true,
          { data := { conn.data with
              hyp := { conn.data.hyp with exec := exec, handshake := handshake } },
            log := made (c5 ++ [Call.failf "Couldn't hyper_executor_push"]) })
      else
        (CURLE_OK, true,
          { data := { conn.data with
              hyp := { conn.data.hyp with exec := exec, handshake := handshake } },
            log := made c5 }) := by
  obtain ⟨⟨up, ⟨e, hs, rw, ww⟩⟩, log⟩ := conn
  by_cases h1 : hyper.hyper_io_new = NULL <;> by_cases h2 : e = NULL <;>
    by_cases h2n : hyper.hyper_executor_new = NULL <;>
    by_cases h3 : hyper.hyper_clientconn_options_new = NULL <;>
    by_cases h4 : hs = NULL <;> by_cases h4n : hyper.hyper_clientconn_handshake = NULL <;>
    by_cases h5 : hyper.hyper_executor_push = HYPER_OK <;>
    simp [Curl_http, Id.run, h1, h2, h2n, h3, h4, h4n, h5, connectdata.call,
      connectdata.set_exec, connectdata.set_handshake, Ne.symm, eq_comm]

/-- A successful `Curl_http` leaves an executor and a handshake in the
connection. -/
theorem Curl_http_ok_bootstrapped (conn : connectdata) (hyper : Hyper)
    (hok : (Curl_http conn hyper).1 = CURLE_OK) :
    (Curl_http conn hyper).2.2.data.hyp.exec ≠ NULL ∧
    (Curl_http conn hyper).2.2.data.hyp.handshake ≠ NULL := by
  rw [Curl_http_eq] at hok ⊢
  by_cases h1 : hyper.hyper_io_new = NULL
  · simp [h1] at hok
  by_cases h2 : (if conn.data.hyp.exec = NULL then hyper.hyper_executor_new
      else conn.data.hyp.exec) = NULL
  · simp [h1, h2] at hok
  by_cases h3 : hyper.hyper_clientconn_options_new = NULL
  · simp [h1, h2, h3] at hok
  by_cases h4 : (if conn.data.hyp.handshake = NULL then hyper.hyper_clientconn_handshake
      else conn.data.hyp.handshake) = NULL
  · simp [h1, h2, h3, h4] at hok
  by_cases h5 : hyper.hyper_executor_push = HYPER_OK
  · simp [h1, h2, h3, h4, h5]
  · simp [h1, h2, h3, h4, h5] at hok

/-- The function `Curl_http` on a connection that has an executor and a
handshake. -/
theorem Curl_http_eq_bootstrapped (conn : connectdata) (hyper : Hyper)
    (hexec : conn.data.hyp.exec ≠ NULL) (hhandshake : conn.data.hyp.handshake ≠ NULL) :
    (Curl_http conn hyper).2.2.data = conn.data ∧
    (Curl_http conn hyper).2.2.new_calls conn =
      [Call.infof "Time for the Hyper dance\n", Call.hyper_io_new hyper.hyper_io_new] ++
      (if hyper.hyper_io_new = NULL then [Call.failf "Couldn't create hyper IO"]
       else
        [Call.hyper_io_set_data hyper.hyper_io_new, Call.hyper_io_set_read hyper.hyper_io_new,
          Call.hyper_io_set_write hyper.hyper_io_new,
          Call.hyper_clientconn_options_new hyper.hyper_clientconn_options_new] ++
        (if hyper.hyper_clientconn_options_new = NULL then
          [Call.failf "Couldn't create hyper client options"]
         else
          [Call.hyper_clientconn_options_exec hyper.hyper_clientconn_options_new
              conn.data.hyp.exec,
            Call.hyper_executor_push conn.data.hyp.exec conn.data.hyp.handshake
              hyper.hyper_executor_push] ++
          (if hyper.hyper_executor_push = HYPER_OK then []
           else [Call.failf "Couldn't hyper_executor_push"]))) := by
  rw [Curl_http_eq]
  by_cases h1 : hyper.hyper_io_new = NULL <;>
    by_cases h3 : hyper.hyper_clientconn_options_new = NULL <;>
    by_cases h5 : hyper.hyper_executor_push = HYPER_OK <;>
    simp [h1, h3, h5, hexec, hhandshake, connectdata.new_calls, Function.comp_def]

/-- The callbacks leave the executor and the handshake of the connection
alone. -/
theorem apply_exec_handshake (c : IoCall) (conn : connectdata) :
    (c.apply conn).data.hyp.exec = conn.data.hyp.exec ∧
    (c.apply conn).data.hyp.handshake = conn.data.hyp.handshake := by
  cases c with
  | pull ctx buf buflen fill waker =>
    simp only [IoCall.apply, read_cb_eq]
    by_cases h : fill.1 = CURLE_AGAIN <;> simp [h]
  | push ctx buf buflen drain waker =>
    simp only [IoCall.apply, write_cb_eq]
    by_cases h : drain = CURLE_AGAIN <;> simp [h]

/-- A sequence of polls leaves the executor and the handshake of the
connection alone. -/
theorem polls_exec_handshake (calls : List IoCall) :
    ∀ conn : connectdata,
      (polls conn calls).data.hyp.exec = conn.data.hyp.exec ∧
      (polls conn calls).data.hyp.handshake = conn.data.hyp.handshake := by
  induction calls with
  | nil => intro conn; simp [polls]
  | cons c cs ih =>
    intro conn
    have h1 := ih (c.apply conn)
    have h2 := apply_exec_handshake c conn
    simp only [polls, List.foldl_cons] at h1 ⊢
    exact ⟨h1.1.trans h2.1, h1.2.trans h2.2⟩

/-! ## The bootstrap -/

/-- C7: after a `Curl_http` that returned `CURLE_OK` and any polls of the
callbacks since, a second `Curl_http` on the same connection, whatever hyper
answers, calls neither `hyper_executor_new` nor `hyper_clientconn_handshake`,
leaves `exec` and `handshake` as the first call left them, both non-null, and
enqueues, if it gets that far (its io binding and its options were created),
that handshake on that executor and nothing else. -/
theorem Curl_http_second_call_reuses (conn after_first : connectdata) (first second : Hyper)
    (done : Bool) (between : List IoCall)
    (hfirst : Curl_http conn first = (CURLE_OK, done, after_first)) :
    (Curl_http (polls after_first between) second).2.2.data.hyp.exec =
      after_first.data.hyp.exec ∧
    (Curl_http (polls after_first between) second).2.2.data.hyp.handshake =
      after_first.data.hyp.handshake ∧
    after_first.data.hyp.exec ≠ NULL ∧
    after_first.data.hyp.handshake ≠ NULL ∧
    (∀ c ∈ (Curl_http (polls after_first between) second).2.2.new_calls
        (polls after_first between),
      c.step ≠ some Step.executor ∧ c.step ≠ some Step.handshake) ∧
    pushes ((Curl_http (polls after_first between) second).2.2.new_calls
        (polls after_first between)) =
      (if second.hyper_io_new = NULL ∨ second.hyper_clientconn_options_new = NULL then []
       else [Call.hyper_executor_push after_first.data.hyp.exec after_first.data.hyp.handshake
          second.hyper_executor_push]) := by
  have hok : (Curl_http conn first).1 = CURLE_OK := by rw [hfirst]
  have hboot := Curl_http_ok_bootstrapped conn first hok
  rw [hfirst] at hboot
  obtain ⟨he, hh⟩ := hboot
  obtain ⟨hpe, hph⟩ := polls_exec_handshake between after_first
  obtain ⟨hd, hc⟩ := Curl_http_eq_bootstrapped (polls after_first between) second
    (by rw [hpe]; exact he) (by rw [hph]; exact hh)
  refine ⟨by rw [hd, hpe], by rw [hd, hph], he, hh, ?_, ?_⟩
  · rw [hc]
    by_cases h1 : second.hyper_io_new = NULL <;>
      by_cases h3 : second.hyper_clientconn_options_new = NULL <;>
      by_cases h5 : second.hyper_executor_push = HYPER_OK <;>
      simp [h1, h3, h5, Call.step]
  · rw [hc, hpe, hph]
    by_cases h1 : second.hyper_io_new = NULL <;>
      by_cases h3 : second.hyper_clientconn_options_new = NULL <;>
      by_cases h5 : second.hyper_executor_push = HYPER_OK <;>
      simp [h1, h3, h5, pushes, Call.step, List.filter]

/-- C8: on a connection with no executor and no handshake, when the four
constructors answer non-null and the enqueue answers `HYPER_OK`, `Curl_http`
returns `CURLE_OK` with `*done` true, stores the executor and the handshake
just constructed, the handshake being constructed from this call's io binding
and options, and makes exactly these calls, among them one
`hyper_executor_push`, of that handshake on that executor. -/
theorem Curl_http_fresh_success (conn : connectdata) (hyper : Hyper)
    (hexec : conn.data.hyp.exec = NULL) (hhandshake : conn.data.hyp.handshake = NULL)
    (hio : hyper.hyper_io_new ≠ NULL) (hnew : hyper.hyper_executor_new ≠ NULL)
    (hoptions : hyper.hyper_clientconn_options_new ≠ NULL)
    (hshake : hyper.hyper_clientconn_handshake ≠ NULL)
    (hpush : hyper.hyper_executor_push = HYPER_OK) :
    (Curl_http conn hyper).1 = CURLE_OK ∧
    (Curl_http conn hyper).2.1 = true ∧
    (Curl_http conn hyper).2.2.data.hyp.exec = hyper.hyper_executor_new ∧
    (Curl_http conn hyper).2.2.data.hyp.exec ≠ NULL ∧
    (Curl_http conn hyper).2.2.data.hyp.handshake = hyper.hyper_clientconn_handshake ∧
    (Curl_http conn hyper).2.2.data.hyp.handshake ≠ NULL ∧
    (Curl_http conn hyper).2.2.new_calls conn =
      [Call.infof "Time for the Hyper dance\n",
        Call.hyper_io_new hyper.hyper_io_new,
        Call.hyper_io_set_data hyper.hyper_io_new,
        Call.hyper_io_set_read hyper.hyper_io_new,
        Call.hyper_io_set_write hyper.hyper_io_new,
        Call.hyper_executor_new hyper.hyper_executor_new,
        Call.hyper_clientconn_options_new hyper.hyper_clientconn_options_new,
        Call.hyper_clientconn_options_exec hyper.hyper_clientconn_options_new
          hyper.hyper_executor_new,
        Call.hyper_clientconn_handshake hyper.hyper_io_new hyper.hyper_clientconn_options_new
          hyper.hyper_clientconn_handshake,
        Call.hyper_executor_push hyper.hyper_executor_new hyper.hyper_clientconn_handshake
          HYPER_OK] ∧
    pushes ((Curl_http conn hyper).2.2.new_calls conn) =
      [Call.hyper_executor_push hyper.hyper_executor_new hyper.hyper_clientconn_handshake
        HYPER_OK] := by
  rw [Curl_http_eq]
  simp [hexec, hhandshake, hio, hnew, hoptions, hshake, hpush, connectdata.new_calls,
    Function.comp_def, pushes, Call.step, List.filter]

/-- A fresh connection bootstrapped with hyper answering the io binding 101,
the executor 102, the options 103, the handshake 104 and `HYPER_OK`. -/
theorem Curl_http_fresh_success_witness :
    (Curl_http blank ⟨101, 102, 103, 104, HYPER_OK⟩).1 = CURLE_OK ∧
    pushes ((Curl_http blank ⟨101, 102, 103, 104, HYPER_OK⟩).2.2.new_calls blank) =
      [Call.hyper_executor_push 102 104 HYPER_OK] :=
  have h := Curl_http_fresh_success blank ⟨101, 102, 103, 104, HYPER_OK⟩ (by decide) (by decide)
    (by decide) (by decide) (by decide) (by decide) (by decide)
  ⟨h.1, h.2.2.2.2.2.2.2⟩

/-- A first call that constructs the executor 102 and the handshake 104, a
would-block read, then a second call answered 201 to 204: the handshake stored
and pushed is still 104. -/
theorem Curl_http_second_call_reuses_witness :
    Curl_http blank ⟨101, 102, 103, 104, HYPER_OK⟩ =
      (CURLE_OK, true, (Curl_http blank ⟨101, 102, 103, 104, HYPER_OK⟩).2.2) ∧
    (Curl_http (polls (Curl_http blank ⟨101, 102, 103, 104, HYPER_OK⟩).2.2
      [IoCall.pull 7 4096 16 (CURLE_AGAIN, 0) 11])
      ⟨201, 202, 203, 204, HYPER_OK⟩).2.2.data.hyp.handshake = 104 ∧
    (Curl_http (polls (Curl_http blank ⟨101, 102, 103, 104, HYPER_OK⟩).2.2
        [IoCall.pull 7 4096 16 (CURLE_AGAIN, 0) 11])
        ⟨201, 202, 203, 204, HYPER_OK⟩).2.2.data.hyp.handshake =
      (Curl_http blank ⟨101, 102, 103, 104, HYPER_OK⟩).2.2.data.hyp.handshake :=
  ⟨by decide, by decide,
    (Curl_http_second_call_reuses blank (Curl_http blank ⟨101, 102, 103, 104, HYPER_OK⟩).2.2
      ⟨101, 102, 103, 104, HYPER_OK⟩ ⟨201, 202, 203, 204, HYPER_OK⟩ true
      [IoCall.pull 7 4096 16 (CURLE_AGAIN, 0) 11] (by decide)).2.1⟩

/-- A step that constructs only when the connection has nothing and does not
fail either constructs a non-null handle or keeps the one the connection has. -/
theorem created_or_kept (a b : Ptr) (h : ¬ (a = NULL ∧ b = NULL)) :
    (a = NULL ∧ b ≠ NULL) ∨ (a ≠ NULL ∧ (if a = NULL then b else a) = a) := by
  by_cases ha : a = NULL
  · exact Or.inl ⟨ha, fun hb => h ⟨ha, hb⟩⟩
  · exact Or.inr ⟨ha, by simp [ha]⟩

/-- When the io binding fails, in terms of the answers of hyper. -/
theorem first_failure_io (conn : connectdata) (hyper : Hyper) :
    first_failure conn hyper Step.io ↔ hyper.hyper_io_new = NULL := by
  constructor
  · intro h; exact h.1
  · intro h
    refine ⟨h, fun j hj => ?_⟩
    cases j <;> simp [Step.rank] at hj

/-- When the executor is the first step to fail, in terms of the answers of hyper. -/
theorem first_failure_executor (conn : connectdata) (hyper : Hyper) :
    first_failure conn hyper Step.executor ↔
      hyper.hyper_io_new ≠ NULL ∧ conn.data.hyp.exec = NULL ∧
      hyper.hyper_executor_new = NULL := by
  constructor
  · intro h
    exact ⟨h.2 Step.io (by decide), h.1⟩
  · intro h
    refine ⟨h.2, fun j hj => ?_⟩
    cases j <;> simp [Step.rank] at hj
    exact h.1

/-- When the options are the first step to fail, in terms of the answers of hyper. -/
theorem first_failure_options (conn : connectdata) (hyper : Hyper) :
    first_failure conn hyper Step.options ↔
      hyper.hyper_io_new ≠ NULL ∧
      ¬ (conn.data.hyp.exec = NULL ∧ hyper.hyper_executor_new = NULL) ∧
      hyper.hyper_clientconn_options_new = NULL := by
  constructor
  · intro h
    exact ⟨h.2 Step.io (by decide), h.2 Step.executor (by decide), h.1⟩
  · intro h
    refine ⟨h.2.2, fun j hj => ?_⟩
    cases j <;> simp [Step.rank] at hj
    · exact h.1
    · exact h.2.1

/-- When the handshake is the first step to fail, in terms of the answers of hyper. -/
theorem first_failure_handshake (conn : connectdata) (hyper : Hyper) :
    first_failure conn hyper Step.handshake ↔
      hyper.hyper_io_new ≠ NULL ∧
      ¬ (conn.data.hyp.exec = NULL ∧ hyper.hyper_executor_new = NULL) ∧
      hyper.hyper_clientconn_options_new ≠ NULL ∧
      conn.data.hyp.handshake = NULL ∧ hyper.hyper_clientconn_handshake = NULL := by
  constructor
  · intro h
    exact ⟨h.2 Step.io (by decide), h.2 Step.executor (by decide),
      h.2 Step.options (by decide), h.1⟩
  · intro h
    refine ⟨h.2.2.2, fun j hj => ?_⟩
    cases j <;> simp [Step.rank] at hj
    · exact h.1
    · exact h.2.1
    · exact h.2.2.1

/-- When the enqueue is the first step to fail, in terms of the answers of hyper. -/
theorem first_failure_enqueue (conn : connectdata) (hyper : Hyper) :
    first_failure conn hyper Step.enqueue ↔
      hyper.hyper_io_new ≠ NULL ∧
      ¬ (conn.data.hyp.exec = NULL ∧ hyper.hyper_executor_new = NULL) ∧
      hyper.hyper_clientconn_options_new ≠ NULL ∧
      ¬ (conn.data.hyp.handshake = NULL ∧ hyper.hyper_clientconn_handshake = NULL) ∧
      hyper.hyper_executor_push ≠ HYPER_OK := by
  constructor
  · intro h
    exact ⟨h.2 Step.io (by decide), h.2 Step.executor (by decide),
      h.2 Step.options (by decide), h.2 Step.handshake (by decide), h.1⟩
  · intro h
    refine ⟨h.2.2.2.2, fun j hj => ?_⟩
    cases j <;> simp [Step.rank] at hj
    · exact h.1
    · exact h.2.1
    · exact h.2.2.1
    · exact h.2.2.2.1

/-- C9: when step `k` (io binding, executor, options, handshake, enqueue) is
the first to fail, `Curl_http` returns `CURLE_OUT_OF_MEMORY` with `*done` true,
makes no call of a later step, no `hyper_executor_push` answered `HYPER_OK` and
so enqueues nothing, and undoes nothing: past the executor step `exec` holds
the executor the connection had or the one just constructed, at the enqueue
step `handshake` holds the handshake the connection had or the one just
constructed, and an executor or handshake the connection already had is kept.
`Curl_http` returns `CURLE_OK` or `CURLE_OUT_OF_MEMORY`, and the latter only
when one of the five steps fails. -/
theorem Curl_http_failure (conn : connectdata) (hyper : Hyper) :
    (∀ k : Step, first_failure conn hyper k →
      (Curl_http conn hyper).1 = CURLE_OUT_OF_MEMORY ∧
      (Curl_http conn hyper).2.1 = true ∧
      (∀ c ∈ (Curl_http conn hyper).2.2.new_calls conn,
        ∀ j : Step, c.step = some j → j.rank ≤ k.rank) ∧
      (∀ exec handshake : Ptr, Call.hyper_executor_push exec handshake HYPER_OK ∉
        (Curl_http conn hyper).2.2.new_calls conn) ∧
      (Step.executor.rank < k.rank →
        (Curl_http conn hyper).2.2.data.hyp.exec ≠ NULL ∧
        (Curl_http conn hyper).2.2.data.hyp.exec =
          (if conn.data.hyp.exec = NULL then hyper.hyper_executor_new
           else conn.data.hyp.exec)) ∧
      (Step.handshake.rank < k.rank →
        (Curl_http conn hyper).2.2.data.hyp.handshake ≠ NULL ∧
        (Curl_http conn hyper).2.2.data.hyp.handshake =
          (if conn.data.hyp.handshake = NULL then hyper.hyper_clientconn_handshake
           else conn.data.hyp.handshake)) ∧
      (conn.data.hyp.exec ≠ NULL →
        (Curl_http conn hyper).2.2.data.hyp.exec = conn.data.hyp.exec) ∧
      (conn.data.hyp.handshake ≠ NULL →
        (Curl_http conn hyper).2.2.data.hyp.handshake = conn.data.hyp.handshake)) ∧
    ((Curl_http conn hyper).1 = CURLE_OK ∨ (Curl_http conn hyper).1 = CURLE_OUT_OF_MEMORY) ∧
    ((Curl_http conn hyper).1 ≠ CURLE_OK → ∃ k : Step, first_failure conn hyper k) := by
  obtain ⟨⟨up, ⟨e, hs, rw, ww⟩⟩, log⟩ := conn
  refine ⟨?_, ?_, ?_⟩
  · intro k hk
    rw [Curl_http_eq]
    cases k
    · rw [first_failure_io] at hk
      simp [hk, connectdata.new_calls, Function.comp_def, Call.step, Step.rank]
    · rw [first_failure_executor] at hk
      obtain ⟨h1, h2, h2n⟩ := hk
      simp only at h2
      subst h2
      by_cases h4 : hs = NULL <;>
        simp [h1, h2n, h4, connectdata.new_calls, Function.comp_def, Call.step, Step.rank]
    · rw [first_failure_options] at hk
      obtain ⟨h1, h2, h3⟩ := hk
      rcases created_or_kept e hyper.hyper_executor_new h2 with ⟨ho, hn⟩ | ⟨ho, hn⟩ <;>
        simp [h1, h3, ho, hn, connectdata.new_calls, Function.comp_def, Call.step, Step.rank]
    · rw [first_failure_handshake] at hk
      obtain ⟨h1, h2, h3, h4, h4n⟩ := hk
      simp only at h4
      subst h4
      rcases created_or_kept e hyper.hyper_executor_new h2 with ⟨ho, hn⟩ | ⟨ho, hn⟩ <;>
        simp [h1, h3, h4n, ho, hn, connectdata.new_calls, Function.comp_def, Call.step,
          Step.rank]
    · rw [first_failure_enqueue] at hk
      obtain ⟨h1, h2, h3, h4, h5⟩ := hk
      rcases created_or_kept e hyper.hyper_executor_new h2 with ⟨ho, hn⟩ | ⟨ho, hn⟩ <;>
        rcases created_or_kept hs hyper.hyper_clientconn_handshake h4 with ⟨hp, hq⟩ | ⟨hp, hq⟩ <;>
        simp [h1, h3, h5, h5.symm, ho, hn, hp, hq, connectdata.new_calls, Function.comp_def, Call.step,
          Step.rank]
  · rw [Curl_http_eq]
    by_cases h1 : hyper.hyper_io_new = NULL
    · simp [h1]
    by_cases h2 : (if e = NULL then hyper.hyper_executor_new else e) = NULL
    · simp [h1, h2]
    by_cases h3 : hyper.hyper_clientconn_options_new = NULL
    · simp [h1, h2, h3]
    by_cases h4 : (if hs = NULL then hyper.hyper_clientconn_handshake else hs) = NULL
    · simp [h1, h2, h3, h4]
    by_cases h5 : hyper.hyper_executor_push = HYPER_OK <;> simp [h1, h2, h3, h4, h5]
  · intro hne
    by_cases h1 : hyper.hyper_io_new = NULL
    · exact ⟨Step.io, (first_failure_io _ _).2 h1⟩
    by_cases h2 : e = NULL ∧ hyper.hyper_executor_new = NULL
    · exact ⟨Step.executor, (first_failure_executor _ _).2 ⟨h1, h2⟩⟩
    by_cases h3 : hyper.hyper_clientconn_options_new = NULL
    · exact ⟨Step.options, (first_failure_options _ _).2 ⟨h1, h2, h3⟩⟩
    by_cases h4 : hs = NULL ∧ hyper.hyper_clientconn_handshake = NULL
    · exact ⟨Step.handshake, (first_failure_handshake _ _).2 ⟨h1, h2, h3, h4⟩⟩
    by_cases h5 : hyper.hyper_executor_push = HYPER_OK
    · exfalso
      apply hne
      rw [Curl_http_eq]
      rcases created_or_kept e hyper.hyper_executor_new h2 with ⟨ho, hn⟩ | ⟨ho, hn⟩ <;>
        rcases created_or_kept hs hyper.hyper_clientconn_handshake h4 with ⟨hp, hq⟩ | ⟨hp, hq⟩ <;>
        simp [h1, h3, h5, ho, hn, hp, hq]
    · exact ⟨Step.enqueue, (first_failure_enqueue _ _).2 ⟨h1, h2, h3, h4, h5⟩⟩

/-- On a fresh connection the options constructor is the first to fail; the
executor 102 constructed before it stays stored and nothing is pushed. -/
theorem Curl_http_failure_witness :
    first_failure blank ⟨101, 102, NULL, 104, HYPER_OK⟩ Step.options ∧
    (Curl_http blank ⟨101, 102, NULL, 104, HYPER_OK⟩).1 = CURLE_OUT_OF_MEMORY ∧
    (Curl_http blank ⟨101, 102, NULL, 104, HYPER_OK⟩).2.2.data.hyp.exec = 102 ∧
    pushes ((Curl_http blank ⟨101, 102, NULL, 104, HYPER_OK⟩).2.2.new_calls blank) = [] :=
  ⟨by decide,
    ((Curl_http_failure blank ⟨101, 102, NULL, 104, HYPER_OK⟩).1 Step.options (by decide)).1,
    by decide, by decide⟩

end CHyper
